import Mathlib

/-!
Verification of the stock-analysis core (Indicator Engine, Signal Derivation,
Support/Resistance Classifier, Sentiment rule table, Analysis Pipeline,
AI-analyzer fallback) against its specification.

The Python source (`stock_analysis/core/technical_indicators.py`,
`analyzer.py`, `pipeline.py`, `skills/stock_analysis.py`) is shallowly
embedded here:
* a pandas numeric `Series` cell is `Option ℚ` (`none` models NaN /
  "undefined"; exact rationals replace IEEE floats, which is faithful since
  every arithmetic operation used by the source is rational);
* `rolling(window).{mean,min,max,std}` and `ewm(..., adjust=False).mean()`
  are implemented below with pandas' semantics (leading NaN until the window
  is full; exponentially-weighted recursion that skips NaN cells, decaying
  the accumulated weight, as pandas does with `ignore_na=False`);
* a Python exception is an `Except String` error value; a `try/except`
  block is a `match` on such a value; call sites that may raise take an
  explicit fault argument (`Option String`) injecting the exception, so that
  the catch/propagate structure of the source is preserved exactly;
* thread-pool fan-out in the pipeline is modelled as a fold over the
  submitted symbols: the aggregated result multiset (and hence its size) is
  independent of completion order.
-/

/- ============ constants (stock_analysis/constants.py) ============ -/

def MIN_DATA_DAYS : ℕ := 20
def MIN_DAYS_FOR_KDJ : ℕ := 9
def MIN_DAYS_FOR_MACD : ℕ := 26
def MIN_DAYS_FOR_BBI : ℕ := 24
def MIN_DAYS_FOR_ZHIXING_MULTI : ℕ := 114
def KDJ_N : ℕ := 9
def KDJ_M1 : ℕ := 3
def KDJ_M2 : ℕ := 3
def MACD_FAST : ℕ := 12
def MACD_SLOW : ℕ := 26
def MACD_SIGNAL : ℕ := 9
def RSI_PERIOD : ℕ := 14
def BBI_PERIODS : List ℕ := [3, 6, 12, 24]
def ZHIXING_TREND_PERIOD : ℕ := 10
def ZHIXING_MULTI_PERIODS : List ℕ := [14, 28, 57, 114]
def CHANGE_PCT_HIGH : ℚ := 5.0
def CHANGE_PCT_MEDIUM : ℚ := 3.0
def EPSILON : ℚ := 1 / 10000000000

/- ============ pandas series primitives ============ -/

/-- A cell of a pandas numeric series: `none` is NaN ("undefined"). -/
abbrev Cell : Type := Option ℚ

/-- A pandas numeric series. -/
abbrev PdSeries : Type := List Cell

/-- The trailing window of length `w` ending at index `t` (pandas
`rolling(window=w)` at position `t`). -/
def windowSlice (w t : ℕ) (xs : List ℚ) : List ℚ :=
  (xs.take (t + 1)).drop (t + 1 - w)

/-- `rolling(window=w).apply(f)` over a NaN-free numeric series: defined
(from index `w-1` on) exactly when the window is full. -/
def rollingApply (f : List ℚ → ℚ) (w : ℕ) (xs : List ℚ) : PdSeries :=
  (List.range xs.length).map fun t =>
    if w ≤ t + 1 then some (f (windowSlice w t xs)) else none

/-- Mean of a list of rationals, divisor the window size. -/
def listMeanBy (w : ℕ) (ys : List ℚ) : ℚ := ys.sum / (w : ℚ)

/-- Minimum of a nonempty list (0 for the empty list, never hit with
`w ≥ 1`). -/
def listMin : List ℚ → ℚ
  | [] => 0
  | x :: rest => rest.foldl min x

/-- Maximum of a nonempty list (0 for the empty list, never hit with
`w ≥ 1`). -/
def listMax : List ℚ → ℚ
  | [] => 0
  | x :: rest => rest.foldl max x

/-- `rolling(w).mean()`. -/
def rollingMean (w : ℕ) (xs : List ℚ) : PdSeries := rollingApply (listMeanBy w) w xs

/-- `rolling(w).min()`. -/
def rollingMin (w : ℕ) (xs : List ℚ) : PdSeries := rollingApply listMin w xs

/-- `rolling(w).max()`. -/
def rollingMax (w : ℕ) (xs : List ℚ) : PdSeries := rollingApply listMax w xs

/-- Elementwise binary arithmetic on aligned series; NaN propagates
(pandas `a + b`, `a - b`, ...). -/
def cellMap2 (f : ℚ → ℚ → ℚ) : Cell → Cell → Cell
  | some a, some b => some (f a b)
  | _, _ => none

/-- Elementwise unary arithmetic; NaN propagates. -/
def cellMap (f : ℚ → ℚ) : Cell → Cell
  | some a => some (f a)
  | none => none

/-- Zip two aligned series with a binary arithmetic operation. -/
def seriesZip (f : ℚ → ℚ → ℚ) (a b : PdSeries) : PdSeries :=
  List.zipWith (cellMap2 f) a b

/-- Zip three aligned series. -/
def seriesZip3 (f : ℚ → ℚ → ℚ → ℚ) (a b c : PdSeries) : PdSeries :=
  List.zipWith (fun x (yz : Cell × Cell) =>
    match x, yz.1, yz.2 with
    | some xv, some yv, some zv => some (f xv yv zv)
    | _, _, _ => none) a (List.zip b c)

/-- One step of pandas `ewm(alpha=α, adjust=False, ignore_na=False).mean()`.
State: `some (m, w)` = current mean `m` with accumulated old weight `w`;
`none` = no valid observation seen yet.  A NaN cell emits the previous mean
and decays the old weight, exactly as pandas does. -/
def ewmStep (α : ℚ) : Option (ℚ × ℚ) → Cell → Option (ℚ × ℚ) × Cell
  | none, none => (none, none)
  | none, some x => (some (x, 1), some x)
  | some (m, w), none => (some (m, w * (1 - α)), some m)
  | some (m, w), some x =>
      let denom := w * (1 - α) + α
      let m2 := (w * (1 - α) * m + α * x) / denom
      (some (m2, denom), some m2)

/-- Recursion for `ewm(...).mean()` over a series. -/
def ewmGo (α : ℚ) (st : Option (ℚ × ℚ)) : PdSeries → PdSeries
  | [] => []
  | x :: rest =>
      let p := ewmStep α st x
      p.2 :: ewmGo α p.1 rest

/-- `series.ewm(alpha=α, adjust=False).mean()`. -/
def ewmMean (α : ℚ) (xs : PdSeries) : PdSeries := ewmGo α none xs

/-- pandas `shift(1)`: prepend NaN, drop the last entry. -/
def shift1 (xs : PdSeries) : PdSeries := none :: xs.dropLast

/-- `cell > 0` with pandas semantics: NaN compares false. -/
def cellGtZero : Cell → Bool
  | some v => decide (0 < v)
  | none => false

/-- `cell ≤ 0`; NaN compares false. -/
def cellLeZero : Cell → Bool
  | some v => decide (v ≤ 0)
  | none => false

/-- `cell < 0`; NaN compares false. -/
def cellLtZero : Cell → Bool
  | some v => decide (v < 0)
  | none => false

/-- `cell ≥ 0`; NaN compares false. -/
def cellGeZero : Cell → Bool
  | some v => decide (0 ≤ v)
  | none => false

/- ============ indicator engine (technical_indicators.py) ============ -/

/-- `calculate_sma(data, window)` = `data.rolling(window).mean()`. -/
def calculate_sma (data : List ℚ) (window : ℕ) : PdSeries :=
  rollingMean window data

/-- `calculate_ema(data, window)` =
`data.ewm(span=window, adjust=False).mean()`, smoothing factor
`α = 2/(window+1)`. -/
def calculate_ema (data : PdSeries) (window : ℕ) : PdSeries :=
  ewmMean (2 / ((window : ℚ) + 1)) data

/-- `calculate_kdj(high, low, close, n, m1, m2)`:
`RSV = (close - LLV(low,n)) / (HHV(high,n) - LLV(low,n) + EPSILON) * 100`,
`K = RSV.ewm(alpha=1/m1)`, `D = K.ewm(alpha=1/m2)`, `J = 3K - 2D`. -/
def calculate_kdj (high low close : List ℚ) (n m1 m2 : ℕ) :
    PdSeries × PdSeries × PdSeries :=
  let lowest_low := rollingMin n low
  let highest_high := rollingMax n high
  let rsv := seriesZip3 (fun c ll hh => (c - ll) / (hh - ll + EPSILON) * 100)
    (close.map some) lowest_low highest_high
  let k := ewmMean (1 / (m1 : ℚ)) rsv
  let d := ewmMean (1 / (m2 : ℚ)) k
  let j := seriesZip (fun kv dv => 3 * kv - 2 * dv) k d
  (k, d, j)

/-- `calculate_macd(close, fast, slow, signal)`: fast EMA minus slow EMA,
signal line its EMA, histogram `(macd - signal) * 2`. -/
def calculate_macd (close : List ℚ) (fast slow signal : ℕ) :
    PdSeries × PdSeries × PdSeries :=
  let ema_fast := calculate_ema (close.map some) fast
  let ema_slow := calculate_ema (close.map some) slow
  let macd_line := seriesZip (· - ·) ema_fast ema_slow
  let signal_line := calculate_ema macd_line signal
  let histogram := seriesZip (fun m s => (m - s) * 2) macd_line signal_line
  (macd_line, signal_line, histogram)

/-- `close.diff()`: first cell NaN, then successive differences. -/
def seriesDiff (close : List ℚ) : PdSeries :=
  match close with
  | [] => []
  | _ :: _ => none :: List.zipWith (fun a b => some (a - b)) (close.drop 1) close

/-- `delta.where(delta > 0, 0)`: keep positive deltas, everything else
(including the leading NaN, which compares false) becomes 0. -/
def positivePart (c : Cell) : ℚ :=
  match c with
  | some v => if 0 < v then v else 0
  | none => 0

/-- `(-delta.where(delta < 0, 0))`: absolute value of negative deltas,
everything else becomes 0. -/
def negativePart (c : Cell) : ℚ :=
  match c with
  | some v => if v < 0 then -v else 0
  | none => 0

/-- `calculate_rsi(close, window)`: rolling mean gain over rolling mean
loss, `RSI = 100 - 100/(1 + gain/(loss + EPSILON))`. -/
def calculate_rsi (close : List ℚ) (window : ℕ) : PdSeries :=
  let delta := seriesDiff close
  let gain := rollingMean window (delta.map positivePart)
  let loss := rollingMean window (delta.map negativePart)
  let rs := seriesZip (fun g l => g / (l + EPSILON)) gain loss
  rs.map (cellMap (fun r => 100 - 100 / (1 + r)))

/-- `calculate_bbi(close)`: mean of the four SMAs with periods 3/6/12/24. -/
def calculate_bbi (close : List ℚ) : PdSeries :=
  let ma_values := BBI_PERIODS.map (calculate_sma close)
  match ma_values with
  | [] => []
  | m :: rest =>
      (rest.foldl (seriesZip (· + ·)) m).map
        (cellMap (fun s => s / (BBI_PERIODS.length : ℚ)))

/-- `calculate_zhixing_trend_line(close)` = `EMA(EMA(close,10),10)`; its body
is wrapped in `try/except`: a raised exception (the `fault` argument) is
caught and an all-NaN series of the same length is returned
(`pd.Series(index=close.index, dtype=float)`). -/
def calculate_zhixing_trend_line (fault : Option String) (close : List ℚ) :
    PdSeries :=
  match fault with
  | some _ => List.replicate close.length none
  | none =>
      calculate_ema (calculate_ema (close.map some) ZHIXING_TREND_PERIOD)
        ZHIXING_TREND_PERIOD

/-- `calculate_zhixing_multi_line(close)`: mean of the SMAs with periods
14/28/57/114, `try/except`-wrapped like the trend line. -/
def calculate_zhixing_multi_line (fault : Option String) (close : List ℚ) :
    PdSeries :=
  match fault with
  | some _ => List.replicate close.length none
  | none =>
      let mas := ZHIXING_MULTI_PERIODS.map (calculate_sma close)
      match mas with
      | [] => []
      | m :: rest =>
          (rest.foldl (seriesZip (· + ·)) m).map (cellMap (fun s => s / 4))

/-- Clip a rational to `[lo, hi]` (pandas `clip`). -/
def clipQ (lo hi v : ℚ) : ℚ := min hi (max lo v)

/-- `calculate_oscillator(close, high, low, volume, period)`: RSI remapped to
`[-50,150]`, scaled by a clipped volume factor, clipped again;
`try/except`-wrapped, degrading to an all-NaN series on an exception. -/
def calculate_oscillator (fault : Option String)
    (close high low volume : List ℚ) (period : ℕ) : PdSeries :=
  match fault with
  | some _ => List.replicate close.length none
  | none =>
      let rsi := calculate_rsi close period
      let osc := rsi.map (cellMap (fun r => r / 100 * 200 - 50))
      let volume_ma := rollingMean period volume
      let vr := seriesZip (fun v m => v / (m + EPSILON)) (volume.map some) volume_ma
      let volume_factor := vr.map (cellMap (fun r => 0.8 + 0.2 * clipQ 0.5 2.0 r))
      (seriesZip (· * ·) osc volume_factor).map (cellMap (clipQ (-50) 150))

/- ============ signal derivation (_calculate_signals) ============ -/

/-- Buy flag of the crossover detector on the pair `(a, b)`:
`(diff > 0) & (diff.shift(1) <= 0)`. -/
def crossBuySignal (a b : PdSeries) : List Bool :=
  let diff := seriesZip (· - ·) a b
  List.zipWith (fun c p => cellGtZero c && cellLeZero p) diff (shift1 diff)

/-- Sell flag of the crossover detector on the pair `(a, b)`:
`(diff < 0) & (diff.shift(1) >= 0)`. -/
def crossSellSignal (a b : PdSeries) : List Bool :=
  let diff := seriesZip (· - ·) a b
  List.zipWith (fun c p => cellLtZero c && cellGeZero p) diff (shift1 diff)

/- ============ sentiment rule table (analyzer.py) ============ -/

/-- `CombinedAnalyzer._calculate_basic_sentiment(change_pct)`.  The advice
strings are the source's own: "谨慎追高" = cautious-chase, "观望" = watch,
"关注机会" = watch-for-opportunity, "谨慎" = caution. -/
def calculate_basic_sentiment (change_pct : ℚ) : ℚ × String :=
  if change_pct > CHANGE_PCT_MEDIUM then (0.8, "谨慎追高")
  else if change_pct > 0 then (0.6, "观望")
  else if change_pct > -CHANGE_PCT_MEDIUM then (0.4, "关注机会")
  else (0.2, "谨慎")

/- ============ support/resistance classifier (skills/stock_analysis.py) ============ -/

/-- The latest indicator row, as read by the classifier. -/
structure LatestRow where
  ma5 : ℚ
  ma10 : ℚ
  ma20 : ℚ
deriving DecidableEq

/-- The live quote fields read by the classifier. -/
structure QuoteData where
  high : ℚ
  low : ℚ
  openPrice : ℚ
deriving DecidableEq

/-- `StockAnalysisSkill._get_support_resistance(change_pct, latest,
current_data)`.  Labels are the source's strings: "当日最高价" = DayHigh,
"开盘价" = OpenPrice. -/
def get_support_resistance (change_pct : ℚ) (latest : LatestRow)
    (current_data : QuoteData) : (String × ℚ) × (String × ℚ) :=
  if |change_pct| > CHANGE_PCT_HIGH then
    if change_pct > 0 then
      (("MA5", latest.ma5), ("当日最高价", current_data.high))
    else
      (("MA20", latest.ma20), ("开盘价", current_data.openPrice))
  else if |change_pct| ≤ CHANGE_PCT_MEDIUM then
    (("MA20", latest.ma20), ("MA10", latest.ma10))
  else
    (("MA10", latest.ma10), ("MA5", latest.ma5))

/- ============ analysis results and AI analyzers (analyzer.py) ============ -/

/-- `StockResult` dataclass. `technical_indicators` and `additional_info`
are key/value maps; their values are modelled as optional rationals resp.
strings (enough structure for the frame/fallback claims). -/
structure StockResult where
  code : String
  name : String
  current_price : ℚ
  change_percent : ℚ
  sentiment_score : ℚ
  operation_advice : String
  trend_prediction : String
  technical_indicators : List (String × Option ℚ)
  additional_info : List (String × String)
deriving DecidableEq

/-- `GeminiAnalyzer._extract_trend(text)`: looks for buy/bullish or
sell/bearish keywords in the response text. -/
def extract_trend (text : String) : String :=
  if (text.splitOn "买入").length > 1 ∨ (text.splitOn "看涨").length > 1 then
    "短期看涨"
  else if (text.splitOn "卖出").length > 1 ∨ (text.splitOn "看跌").length > 1 then
    "短期看跌"
  else
    "震荡整理"

/-- `GeminiAnalyzer.analyze_stock(stock_result)`.  `generate` is the outcome
of `client.generate_content(prompt)`: an exception, no response, or a
response with `text`.  The Python method mutates `stock_result` in place and
returns the same object, so the embedding returns the pair
(state of the caller's `stock_result` object after the call, returned value);
for this analyzer the two components are always the same object. -/
def GeminiAnalyzer.analyze_stock (available : Bool)
    (generate : Except String (Option String)) (stock_result : StockResult) :
    StockResult × StockResult :=
  if !available then (stock_result, stock_result)
  else
    match generate with
    | .error _ => (stock_result, stock_result)
    | .ok response =>
        match response with
        | some text =>
            if text ≠ "" then
              let r := { stock_result with
                operation_advice := "AI分析: " ++ text.take 300 ++ "...",
                trend_prediction := extract_trend text }
              (r, r)
            else (stock_result, stock_result)
        | none => (stock_result, stock_result)

/-- `OpenAICompatibleAnalyzer.analyze_stock(stock_result)`.  `complete` is
the outcome of `chat.completions.create(...)`: an exception or the list of
choice contents.  Mutates in place like the Gemini analyzer. -/
def OpenAICompatibleAnalyzer.analyze_stock (available : Bool)
    (complete : Except String (List String)) (stock_result : StockResult) :
    StockResult × StockResult :=
  if !available then (stock_result, stock_result)
  else
    match complete with
    | .error _ => (stock_result, stock_result)
    | .ok choices =>
        match choices with
        | content :: _ =>
            let r := { stock_result with
              operation_advice := "AI分析: " ++ content.take 300 ++ "..." }
            (r, r)
        | [] => (stock_result, stock_result)

/-- The outcome of the DeepSeek HTTP round trip: status code plus the
(fallible) extraction `response.json()["choices"][0]["message"]["content"]`. -/
structure DSResponse where
  status_code : ℕ
  body : Except String String

/-- `DeepSeekAnalyzer.analyze_stock(stock_result)`.  On a 200 response with
parseable body it builds a NEW `StockResult` (the input object is left
untouched); every failure path returns the input unchanged. -/
def DeepSeekAnalyzer.analyze_stock (available : Bool)
    (post : Except String DSResponse) (stock_result : StockResult) :
    StockResult × StockResult :=
  if !available then (stock_result, stock_result)
  else
    match post with
    | .error _ => (stock_result, stock_result)
    | .ok response =>
        if response.status_code = 200 then
          match response.body with
          | .error _ => (stock_result, stock_result)
          | .ok ai_response =>
              (stock_result,
               { code := stock_result.code,
                 name := stock_result.name,
                 current_price := stock_result.current_price,
                 change_percent := stock_result.change_percent,
                 sentiment_score := stock_result.sentiment_score,
                 operation_advice := "AI分析: " ++ ai_response.take 200 ++ "...",
                 trend_prediction :=
                   if ai_response.length > 200 then
                     (ai_response.drop 200).take 200
                   else ai_response,
                 technical_indicators := stock_result.technical_indicators,
                 additional_info := stock_result.additional_info })
        else (stock_result, stock_result)

/- ============ analysis pipeline (pipeline.py) ============ -/

/-- One submitted per-symbol task, observed at the aggregation loop:
either it raised (or timed out) — `.error` —, or it completed with
`None` / a `StockResult`. -/
abbrev TaskOutcome : Type := Except String (Option StockResult)

/-- A task contributes no entry unless it completed with a result. -/
def taskFailed (r : TaskOutcome) : Bool :=
  match r with
  | .ok (some _) => false
  | _ => true

/-- `StockAnalysisPipeline.run(stock_codes)`: submit
`analyze_single_stock` per code, collect the successful results, swallow
(and log) exceptions and timeouts.  The thread-pool collects in completion
order; the fold models one completion order, and the claims proved below
(entry counts, one entry per succeeding symbol) are order-independent. -/
def StockAnalysisPipeline.run
    (analyze_single_stock : String → TaskOutcome)
    (stock_codes : List String) : List StockResult :=
  stock_codes.foldl (fun results code =>
    match analyze_single_stock code with
    | .ok (some result) => results ++ [result]
    | .ok none => results
    | .error _ => results) []

/- ===== basic per-stock indicators (calculate_basic_technical_indicators) ===== -/

/-- The dictionary returned by `calculate_basic_technical_indicators`. -/
structure BasicIndicators where
  current_price : ℚ
  MA5 : Option ℚ
  MA10 : Option ℚ
  MA20 : Option ℚ
  RSI : Option ℚ
  MACD : Option ℚ
  signal : String
deriving DecidableEq

/-- `prices.tail(n).mean()`. -/
def tailMean (n : ℕ) (prices : List ℚ) : ℚ :=
  listMeanBy n (prices.drop (prices.length - n))

/-- `calculate_basic_technical_indicators(current_price, historical_data)`:
returns the all-`None`/"neutral" dictionary unless at least
`MIN_DATA_DAYS` = 20 prices are supplied; then fills MA5/MA10/MA20 from
tail means and RSI from the last defined RSI cell.  `MACD` is never
assigned by the source and stays `None`. -/
def calculate_basic_technical_indicators (current_price : ℚ)
    (historical_data : List ℚ) : BasicIndicators :=
  let indicators : BasicIndicators :=
    ⟨current_price, none, none, none, none, none, "neutral"⟩
  if historical_data.isEmpty ∨ historical_data.length < MIN_DATA_DAYS then
    indicators
  else
    let prices := historical_data
    let ma5 := if 5 ≤ prices.length then some (tailMean 5 prices) else none
    let ma10 := if 10 ≤ prices.length then some (tailMean 10 prices) else none
    let ma20 := if 20 ≤ prices.length then some (tailMean 20 prices) else none
    let rsi :=
      if RSI_PERIOD ≤ prices.length then
        match (calculate_rsi prices RSI_PERIOD).getLast? with
        | some (some v) => some v
        | _ => none
      else none
    { indicators with MA5 := ma5, MA10 := ma10, MA20 := ma20, RSI := rsi }

/- ===== full indicator frame with fault injection (calculate_all_indicators) ===== -/

/-- The OHLCV DataFrame handed to `calculate_all_indicators` (columns used
by the computation, aligned by index). -/
structure DataFrame where
  high : List ℚ
  low : List ℚ
  close : List ℚ
  volume : List ℚ

/-- Injected exceptions, one per indicator routine: `some msg` makes that
routine's body raise.  This reifies "an exception raised inside that single
indicator's computation". -/
structure Faults where
  kdj : Option String
  macd : Option String
  bbi : Option String
  trend : Option String
  multi : Option String
  sma : Option String
  ema : Option String
  rsi : Option String

/-- No injected exceptions. -/
def noFaults : Faults := ⟨none, none, none, none, none, none, none, none⟩

/-- Only the trend-line routine raises. -/
def trendFault (e : String) : Faults := ⟨none, none, none, some e, none, none, none, none⟩

/-- Only the KDJ routine raises. -/
def kdjOnlyFault (e : String) : Faults := ⟨some e, none, none, none, none, none, none, none⟩

/-- `calculate_kdj` has no `try/except`: a raised exception propagates to
the caller. -/
def kdjFallible (fault : Option String) (high low close : List ℚ) :
    Except String (PdSeries × PdSeries × PdSeries) :=
  match fault with
  | some e => .error e
  | none => .ok (calculate_kdj high low close KDJ_N KDJ_M1 KDJ_M2)

/-- `calculate_macd` has no `try/except`: exceptions propagate. -/
def macdFallible (fault : Option String) (close : List ℚ) :
    Except String (PdSeries × PdSeries × PdSeries) :=
  match fault with
  | some e => .error e
  | none => .ok (calculate_macd close MACD_FAST MACD_SLOW MACD_SIGNAL)

/-- `calculate_bbi` has no `try/except`: exceptions propagate. -/
def bbiFallible (fault : Option String) (close : List ℚ) :
    Except String PdSeries :=
  match fault with
  | some e => .error e
  | none => .ok (calculate_bbi close)

/-- `calculate_sma` has no `try/except`: exceptions propagate. -/
def smaFallible (fault : Option String) (close : List ℚ) (window : ℕ) :
    Except String PdSeries :=
  match fault with
  | some e => .error e
  | none => .ok (calculate_sma close window)

/-- `calculate_ema` has no `try/except`: exceptions propagate. -/
def emaFallible (fault : Option String) (close : List ℚ) (window : ℕ) :
    Except String PdSeries :=
  match fault with
  | some e => .error e
  | none => .ok (calculate_ema (close.map some) window)

/-- `calculate_rsi` has no `try/except`: exceptions propagate. -/
def rsiFallible (fault : Option String) (close : List ℚ) :
    Except String PdSeries :=
  match fault with
  | some e => .error e
  | none => .ok (calculate_rsi close RSI_PERIOD)

/-- The history-gated columns whose computations can raise out of
`calculate_all_indicators` (everything except the `try/except`-protected
zhixing trend/multi lines); `none` = column not added (insufficient
history). -/
structure GatedCols where
  kdj : Option (PdSeries × PdSeries × PdSeries)
  macd : Option (PdSeries × PdSeries × PdSeries)
  bbi : Option PdSeries
  ma5 : Option PdSeries
  ma10 : Option PdSeries
  ma20 : Option PdSeries
  ma30 : Option PdSeries
  ma60 : Option PdSeries
  ema13 : Option PdSeries
  rsi : Option PdSeries

/-- The gated indicator computations of `calculate_all_indicators`, in
source order; any raised exception aborts the whole chain. -/
def gatedColumns (fs : Faults) (data : DataFrame) : Except String GatedCols := do
  let L := data.close.length
  let kdj ← if MIN_DAYS_FOR_KDJ ≤ L then
      (kdjFallible fs.kdj data.high data.low data.close).map some
    else pure none
  let macd ← if MIN_DAYS_FOR_MACD ≤ L then
      (macdFallible fs.macd data.close).map some
    else pure none
  let bbi ← if MIN_DAYS_FOR_BBI ≤ L then
      (bbiFallible fs.bbi data.close).map some
    else pure none
  let ma5 ← if 5 ≤ L then (smaFallible fs.sma data.close 5).map some else pure none
  let ma10 ← if 10 ≤ L then (smaFallible fs.sma data.close 10).map some else pure none
  let ma20 ← if 20 ≤ L then (smaFallible fs.sma data.close 20).map some else pure none
  let ma30 ← if 30 ≤ L then (smaFallible fs.sma data.close 30).map some else pure none
  let ma60 ← if 60 ≤ L then (smaFallible fs.sma data.close 60).map some else pure none
  let ema13 ← if 13 ≤ L then (emaFallible fs.ema data.close 13).map some else pure none
  let rsi ← if RSI_PERIOD ≤ L then (rsiFallible fs.rsi data.close).map some else pure none
  pure ⟨kdj, macd, bbi, ma5, ma10, ma20, ma30, ma60, ema13, rsi⟩

/-- The per-bar signal columns added by `_calculate_signals`. -/
structure SignalCols where
  signal_buy_kdj : Option (List Bool)
  signal_sell_kdj : Option (List Bool)
  signal_buy_macd : Option (List Bool)
  signal_sell_macd : Option (List Bool)
  signal_buy_trend : List Bool
  signal_sell_trend : List Bool
  signal_buy : List Bool
  signal_sell : List Bool

/-- OR an available signal column into the combined flag column. -/
def orInto (acc : List Bool) : Option (List Bool) → List Bool
  | none => acc
  | some s => List.zipWith (· || ·) acc s

/-- `_calculate_signals(data)`: crossover flags for (K,D),
(macd, macd_signal) and (close, zhixing_trend), plus their ORs.  A pair's
columns exist only if its indicator columns were added; the zhixing trend
column is always present. -/
def calculate_signals (close : List ℚ) (cols : GatedCols)
    (zhixing_trend : PdSeries) : SignalCols :=
  let kdjBuy := cols.kdj.map fun kdj => crossBuySignal kdj.1 kdj.2.1
  let kdjSell := cols.kdj.map fun kdj => crossSellSignal kdj.1 kdj.2.1
  let macdBuy := cols.macd.map fun m => crossBuySignal m.1 m.2.1
  let macdSell := cols.macd.map fun m => crossSellSignal m.1 m.2.1
  let closeS := close.map some
  let trendBuy := crossBuySignal closeS zhixing_trend
  let trendSell := crossSellSignal closeS zhixing_trend
  let base := List.replicate close.length false
  let buy := orInto (orInto (orInto base kdjBuy) macdBuy) (some trendBuy)
  let sell := orInto (orInto (orInto base kdjSell) macdSell) (some trendSell)
  ⟨kdjBuy, kdjSell, macdBuy, macdSell, trendBuy, trendSell, buy, sell⟩

/-- The DataFrame returned by `calculate_all_indicators`: the input columns
plus indicator and signal columns (`none` = column not added). -/
structure Frame where
  close : List ℚ
  kdj_k : Option PdSeries
  kdj_d : Option PdSeries
  kdj_j : Option PdSeries
  macd : Option PdSeries
  macd_signal : Option PdSeries
  macd_hist : Option PdSeries
  bbi : Option PdSeries
  zhixing_trend : PdSeries
  zhixing_multi : Option PdSeries
  ma5 : Option PdSeries
  ma10 : Option PdSeries
  ma20 : Option PdSeries
  ma30 : Option PdSeries
  ma60 : Option PdSeries
  ema13 : Option PdSeries
  rsi : Option PdSeries
  signals : SignalCols

/-- Assembly of the returned DataFrame from the gated columns, the
(`try/except`-protected) zhixing columns and the signal columns. -/
def buildFrame (fs : Faults) (data : DataFrame) (cols : GatedCols) : Frame :=
  let zhixing_trend := calculate_zhixing_trend_line fs.trend data.close
  let zhixing_multi :=
    if MIN_DAYS_FOR_ZHIXING_MULTI ≤ data.close.length then
      some (calculate_zhixing_multi_line fs.multi data.close)
    else none
  let sig := calculate_signals data.close cols zhixing_trend
  { close := data.close,
    kdj_k := cols.kdj.map (·.1),
    kdj_d := cols.kdj.map (·.2.1),
    kdj_j := cols.kdj.map (·.2.2),
    macd := cols.macd.map (·.1),
    macd_signal := cols.macd.map (·.2.1),
    macd_hist := cols.macd.map (·.2.2),
    bbi := cols.bbi,
    zhixing_trend := zhixing_trend,
    zhixing_multi := zhixing_multi,
    ma5 := cols.ma5, ma10 := cols.ma10, ma20 := cols.ma20,
    ma30 := cols.ma30, ma60 := cols.ma60,
    ema13 := cols.ema13, rsi := cols.rsi,
    signals := sig }

/-- `calculate_all_indicators(data)`: `.ok none` models the `None` return on
fewer than `MIN_DATA_DAYS // 4 = 5` bars; `.error e` models an exception
escaping to the caller (only possible from the unprotected indicator
routines); otherwise the assembled frame. -/
def calculate_all_indicators (fs : Faults) (data : DataFrame) :
    Except String (Option Frame) :=
  if data.close.length < MIN_DATA_DAYS / 4 then pure none
  else
    (gatedColumns fs data).map fun cols => some (buildFrame fs data cols)

/- ============ concrete example inputs used by witnesses ============ -/

/-- A 9-bar OHLCV frame (constant prices) for concrete evaluations. -/
def sampleData : DataFrame :=
  ⟨List.replicate 9 6, List.replicate 9 4, List.replicate 9 5, List.replicate 9 100⟩

/-- A concrete analysis result for concrete evaluations. -/
def sampleStockResult : StockResult :=
  ⟨"sh600000", "浦发银行", 10, 1, 0.6, "观望", "当前涨跌幅+1.00%", [("MA5", some 10)], []⟩

/-- A per-symbol analysis in which every task raises a provider error. -/
def failingAnalyze : String → TaskOutcome := fun _ => .error "network error"

/- ============ theorems ============ -/

/-- C4: the rule-based sentiment is total and deterministic (it is a
function), returns exactly score 0.8 / "谨慎追高" (cautious-chase) for
changePercent > 3, 0.6 / "观望" (watch) for 0 < changePercent ≤ 3,
0.4 / "关注机会" (watch-for-opportunity) for −3 < changePercent ≤ 0,
0.2 / "谨慎" (caution) for changePercent ≤ −3, and its score always lies
in [0, 1]. -/
theorem sentiment_rule_table (c : ℚ) :
    ((3.0 : ℚ) < c → calculate_basic_sentiment c = (0.8, "谨慎追高")) ∧
    (0 < c → c ≤ (3.0 : ℚ) → calculate_basic_sentiment c = (0.6, "观望")) ∧
    ((-3.0 : ℚ) < c → c ≤ 0 → calculate_basic_sentiment c = (0.4, "关注机会")) ∧
    (c ≤ (-3.0 : ℚ) → calculate_basic_sentiment c = (0.2, "谨慎")) ∧
    0 ≤ (calculate_basic_sentiment c).1 ∧ (calculate_basic_sentiment c).1 ≤ 1 := by
  unfold calculate_basic_sentiment CHANGE_PCT_MEDIUM
  refine ⟨?_, ?_, ?_, ?_, ?_⟩
  · intro h
    rw [if_pos (by norm_num at h ⊢; linarith)]
  · intro h1 h2
    rw [if_neg (by norm_num at h2 ⊢; linarith), if_pos h1]
  · intro h1 h2
    rw [if_neg (by norm_num; linarith), if_neg (by exact not_lt.mpr h2),
      if_pos (by norm_num at h1 ⊢; linarith)]
  · intro h
    rw [if_neg (by norm_num at h ⊢; linarith), if_neg (by norm_num at h ⊢; linarith),
      if_neg (by norm_num at h ⊢; linarith)]
  · split_ifs <;> norm_num

/-- Witness for C4: the four sentiment buckets at changePercent
4, 2, −1 and −4. -/
theorem sentiment_rule_table_witness :
    calculate_basic_sentiment 4 = (0.8, "谨慎追高") ∧
    calculate_basic_sentiment 2 = (0.6, "观望") ∧
    calculate_basic_sentiment (-1) = (0.4, "关注机会") ∧
    calculate_basic_sentiment (-4) = (0.2, "谨慎") :=
  ⟨(sentiment_rule_table 4).1 (by norm_num),
   (sentiment_rule_table 2).2.1 (by norm_num) (by norm_num),
   (sentiment_rule_table (-1)).2.2.1 (by norm_num) (by norm_num),
   (sentiment_rule_table (-4)).2.2.2.1 (by norm_num)⟩

/-- C3: the support/resistance classifier with thresholds HIGH = 5.0 and
MEDIUM = 3.0 returns (MA5, DayHigh="当日最高价") for a rise beyond 5%,
(MA20, OpenPrice="开盘价") for a fall beyond 5%, (MA20, MA10) for
|changePercent| ≤ 3, and (MA10, MA5) in between; in particular
changePercent = +6.2 yields support (MA5, MA5 value) and resistance
(DayHigh, quote.high). -/
theorem support_resistance_classifier (c : ℚ) (latest : LatestRow) (q : QuoteData) :
    ((5.0 : ℚ) < |c| → 0 < c →
      get_support_resistance c latest q
        = (("MA5", latest.ma5), ("当日最高价", q.high))) ∧
    ((5.0 : ℚ) < |c| → c ≤ 0 →
      get_support_resistance c latest q
        = (("MA20", latest.ma20), ("开盘价", q.openPrice))) ∧
    (|c| ≤ (3.0 : ℚ) →
      get_support_resistance c latest q
        = (("MA20", latest.ma20), ("MA10", latest.ma10))) ∧
    ((3.0 : ℚ) < |c| → |c| ≤ (5.0 : ℚ) →
      get_support_resistance c latest q
        = (("MA10", latest.ma10), ("MA5", latest.ma5))) ∧
    (c = 6.2 →
      get_support_resistance c latest q
        = (("MA5", latest.ma5), ("当日最高价", q.high))) := by
  unfold get_support_resistance CHANGE_PCT_HIGH CHANGE_PCT_MEDIUM
  refine ⟨?_, ?_, ?_, ?_, ?_⟩
  · intro h1 h2
    rw [if_pos (by norm_num at h1 ⊢; linarith), if_pos h2]
  · intro h1 h2
    rw [if_pos (by norm_num at h1 ⊢; linarith), if_neg (not_lt.mpr h2)]
  · intro h
    rw [if_neg (by norm_num at h ⊢; linarith), if_pos (by norm_num at h ⊢; linarith)]
  · intro h1 h2
    rw [if_neg (by norm_num at h2 ⊢; linarith), if_neg (by norm_num at h1 ⊢; linarith)]
  · intro hc
    subst hc
    rw [if_pos (by rw [abs_of_pos] <;> norm_num), if_pos (by norm_num)]

/-- Witness for C3: the spec scenario changePercent = +6.2 with
MA5 = 10.1 and quote.high = 10.8, plus one instance of each other bucket. -/
theorem support_resistance_classifier_witness :
    get_support_resistance 6.2 ⟨10.1, 9.9, 9.5⟩ ⟨10.8, 9.2, 10.0⟩
      = (("MA5", 10.1), ("当日最高价", 10.8)) ∧
    get_support_resistance (-5.5) ⟨10.1, 9.9, 9.5⟩ ⟨10.8, 9.2, 10.0⟩
      = (("MA20", 9.5), ("开盘价", 10.0)) ∧
    get_support_resistance 1 ⟨10.1, 9.9, 9.5⟩ ⟨10.8, 9.2, 10.0⟩
      = (("MA20", 9.5), ("MA10", 9.9)) ∧
    get_support_resistance 4 ⟨10.1, 9.9, 9.5⟩ ⟨10.8, 9.2, 10.0⟩
      = (("MA10", 9.9), ("MA5", 10.1)) :=
  ⟨(support_resistance_classifier 6.2 ⟨10.1, 9.9, 9.5⟩ ⟨10.8, 9.2, 10.0⟩).2.2.2.2 rfl,
   (support_resistance_classifier (-5.5) _ _).2.1
     (by rw [abs_of_neg] <;> norm_num) (by norm_num),
   (support_resistance_classifier 1 _ _).2.2.1 (by norm_num),
   (support_resistance_classifier 4 _ _).2.2.2.1 (by norm_num) (by norm_num)⟩

/-- The mutual-exclusion core of the crossover detector, for any aligned
current/previous difference series. -/
theorem cross_flags_zip_exclusive (ds ps : PdSeries) (t : ℕ) :
    ((List.zipWith (fun c p => cellGtZero c && cellLeZero p) ds ps).getD t false &&
     (List.zipWith (fun c p => cellLtZero c && cellGeZero p) ds ps).getD t false) = false := by
  induction ds generalizing ps t with
  | nil => simp [List.getD]
  | cons d ds ih =>
    cases ps with
    | nil => simp [List.getD]
    | cons p ps =>
      cases t with
      | zero =>
        cases d with
        | none => simp [cellGtZero]
        | some v =>
          by_cases h0 : (0 : ℚ) < v
          · have hnot : ¬ v < 0 := by linarith
            simp [cellGtZero, cellLtZero, h0, hnot]
          · simp [cellGtZero, h0]
      | succ n =>
        simpa [List.getD] using ih ps n

/-- C5: for every pair of series fed to the crossover detector and every
index, the buy flag and the sell flag are never both true (the buy flag
needs a positive current difference, the sell flag a negative one). -/
theorem crossover_buy_sell_exclusive (a b : PdSeries) (t : ℕ) :
    ((crossBuySignal a b).getD t false && (crossSellSignal a b).getD t false) = false := by
  simpa only [crossBuySignal, crossSellSignal] using
    cross_flags_zip_exclusive (seriesZip (· - ·) a b) (shift1 (seriesZip (· - ·) a b)) t

/-- Pointwise-equal predicates count equally. -/
theorem countP_pointwise {α : Type} (p q : α → Bool) (l : List α)
    (h : ∀ a ∈ l, p a = q a) : l.countP p = l.countP q := by
  induction l with
  | nil => rfl
  | cons a l ih =>
    simp only [List.countP_cons, h a (List.mem_cons_self a l),
      ih (fun b hb => h b (List.mem_cons_of_mem a hb))]

/-- A filter-map keeps exactly the entries whose image is not `none`. -/
theorem filterMap_length_sub {α β : Type} (f : α → Option β) (cs : List α) :
    (cs.filterMap f).length = cs.length - cs.countP (fun c => (f c).isNone) := by
  induction cs with
  | nil => rfl
  | cons c cs ih =>
    have hle := List.countP_le_length (p := fun a => (f a).isNone) (l := cs)
    cases hf : f c with
    | none =>
      simp only [List.filterMap_cons, hf, List.countP_cons, List.length_cons,
        Option.isNone_none, if_true, ite_true]
      omega
    | some r =>
      simp only [List.filterMap_cons, hf, List.countP_cons, List.length_cons,
        Option.isNone_some, Bool.false_eq_true, if_false, List.length_cons]
      omega

/-- C2: the pipeline run collects exactly one entry per succeeding symbol
(it equals the filter-map of the per-symbol outcomes), so with N requested
symbols of which K fail it returns N−K entries, a failing symbol
contributes no entry and does not disturb the others, and the result is
empty when every symbol fails. -/
theorem pipeline_partial_failure (analyze : String → TaskOutcome)
    (codes : List String) :
    StockAnalysisPipeline.run analyze codes
      = codes.filterMap (fun c => match analyze c with
          | .ok (some r) => some r
          | _ => none) ∧
    (StockAnalysisPipeline.run analyze codes).length
      = codes.length - codes.countP (fun c => taskFailed (analyze c)) ∧
    ((∀ c ∈ codes, taskFailed (analyze c) = true) →
      StockAnalysisPipeline.run analyze codes = []) := by
  have hfold : ∀ (cs : List String) (acc : List StockResult),
      cs.foldl (fun results code =>
        match analyze code with
        | .ok (some result) => results ++ [result]
        | .ok none => results
        | .error _ => results) acc
      = acc ++ cs.filterMap (fun c => match analyze c with
          | .ok (some r) => some r
          | _ => none) := by
    intro cs
    induction cs with
    | nil => intro acc; simp
    | cons c cs ih =>
      intro acc
      cases h : analyze c with
      | error e => simp [List.foldl_cons, List.filterMap_cons, h, ih]
      | ok o =>
        cases o with
        | none => simp [List.foldl_cons, List.filterMap_cons, h, ih]
        | some r => simp [List.foldl_cons, List.filterMap_cons, h, ih]
  have hrun : StockAnalysisPipeline.run analyze codes
      = codes.filterMap (fun c => match analyze c with
          | .ok (some r) => some r
          | _ => none) := by
    unfold StockAnalysisPipeline.run
    simpa using hfold codes []
  refine ⟨hrun, ?_, ?_⟩
  · rw [hrun, filterMap_length_sub]
    congr 1
    refine countP_pointwise _ _ codes (fun c _ => ?_)
    cases h : analyze c with
    | error e => rfl
    | ok o =>
      cases o with
      | none => rfl
      | some r => rfl
  · intro hall
    rw [hrun]
    refine List.filterMap_eq_nil_iff.mpr ?_
    intro c hc
    have hf := hall c hc
    cases h : analyze c with
    | error e => rfl
    | ok o =>
      cases o with
      | none => rfl
      | some r => rw [h] at hf; simp [taskFailed] at hf

/-- Witness for C2: two symbols, both of whose tasks raise a provider
error, produce the empty result list. -/
theorem pipeline_partial_failure_witness :
    StockAnalysisPipeline.run failingAnalyze ["sh600000", "sz000001"] = [] :=
  (pipeline_partial_failure failingAnalyze ["sh600000", "sz000001"]).2.2
    (by intro c _; rfl)

/-- C8: no AI analyzer raises to its caller (each embedding is a total
function of the backend outcome), and on every internal failure path —
unavailable backend, raised network error, non-200 HTTP status, body parse
failure — the input result is returned unchanged (and the caller's object
is left untouched), degrading to the rule-based advice. -/
theorem ai_analyzer_failure_returns_input (r : StockResult) :
    (∀ g, GeminiAnalyzer.analyze_stock false g r = (r, r)) ∧
    (∀ e, GeminiAnalyzer.analyze_stock true (.error e) r = (r, r)) ∧
    (∀ o, OpenAICompatibleAnalyzer.analyze_stock false o r = (r, r)) ∧
    (∀ e, OpenAICompatibleAnalyzer.analyze_stock true (.error e) r = (r, r)) ∧
    (∀ p, DeepSeekAnalyzer.analyze_stock false p r = (r, r)) ∧
    (∀ e, DeepSeekAnalyzer.analyze_stock true (.error e) r = (r, r)) ∧
    (∀ resp : DSResponse, resp.status_code ≠ 200 →
      DeepSeekAnalyzer.analyze_stock true (.ok resp) r = (r, r)) ∧
    (∀ e s, DeepSeekAnalyzer.analyze_stock true (.ok ⟨s, .error e⟩) r = (r, r)) := by
  refine ⟨fun g => rfl, fun e => rfl, fun o => rfl, fun e => rfl, fun p => rfl,
    fun e => rfl, ?_, ?_⟩
  · intro resp h
    simp [DeepSeekAnalyzer.analyze_stock, h]
  · intro e s
    by_cases hs : s = 200 <;> simp [DeepSeekAnalyzer.analyze_stock, hs]

/-- Witness for C8: a DeepSeek 500 response leaves the concrete result
unchanged. -/
theorem ai_analyzer_failure_returns_input_witness :
    DeepSeekAnalyzer.analyze_stock true (.ok ⟨500, .ok "x"⟩) sampleStockResult
      = (sampleStockResult, sampleStockResult) :=
  (ai_analyzer_failure_returns_input sampleStockResult).2.2.2.2.2.2.1
    ⟨500, .ok "x"⟩ (by decide)

/-- Counterexample to C9: a successful Gemini enrichment mutates the
caller's `StockResult` in place (`stock_result.operation_advice = ...`):
after the call the input object no longer equals its original value, so the
enrichment step does NOT "produce a new value rather than mutating in
place" for every analyzer. -/
theorem ai_enrichment_mutation_counterexample :
    (GeminiAnalyzer.analyze_stock true (.ok (some "看涨")) sampleStockResult).1
      ≠ sampleStockResult := by
  intro h
  have hne : ("看涨" : String) ≠ "" := by decide
  have h2 := congrArg StockResult.operation_advice h
  simp [GeminiAnalyzer.analyze_stock, sampleStockResult, hne] at h2
  have h3 := congrArg String.length h2
  simp [String.length_append] at h3
  have h4 : ("AI分析: ").length = 6 := rfl
  have h5 : ("...").length = 3 := rfl
  have h6 : ("观望").length = 2 := rfl
  omega

/-- The fields of an analysis result that AI enrichment never touches. -/
def framePreserved (x r : StockResult) : Prop :=
  x.code = r.code ∧ x.name = r.name ∧ x.current_price = r.current_price ∧
  x.change_percent = r.change_percent ∧ x.sentiment_score = r.sentiment_score ∧
  x.technical_indicators = r.technical_indicators ∧
  x.additional_info = r.additional_info

/-- C9 (amended): only the DeepSeek analyzer builds a new result value and
leaves the caller's object unchanged; the Gemini and OpenAI-compatible
analyzers enrich by mutating the input in place and returning the same
object.  In every case the fields not touched by enrichment — code, name,
currentPrice, changePercent, sentimentScore, technicalIndicators,
additionalInfo — are identical between input and output. -/
theorem ai_enrichment_frame (r : StockResult) :
    (∀ a p, (DeepSeekAnalyzer.analyze_stock a p r).1 = r) ∧
    (∀ a p, framePreserved (DeepSeekAnalyzer.analyze_stock a p r).2 r) ∧
    (∀ a g, (GeminiAnalyzer.analyze_stock a g r).1
        = (GeminiAnalyzer.analyze_stock a g r).2) ∧
    (∀ a g, framePreserved (GeminiAnalyzer.analyze_stock a g r).2 r) ∧
    (∀ a o, (OpenAICompatibleAnalyzer.analyze_stock a o r).1
        = (OpenAICompatibleAnalyzer.analyze_stock a o r).2) ∧
    (∀ a o, framePreserved (OpenAICompatibleAnalyzer.analyze_stock a o r).2 r) := by
  have hrefl : ∀ x : StockResult, framePreserved x x := by
    intro x
    unfold framePreserved
    exact ⟨rfl, rfl, rfl, rfl, rfl, rfl, rfl⟩
  have hds : ∀ a p, (DeepSeekAnalyzer.analyze_stock a p r).1 = r ∧
      framePreserved (DeepSeekAnalyzer.analyze_stock a p r).2 r := by
    intro a p
    cases a with
    | false => exact ⟨rfl, hrefl r⟩
    | true =>
      cases p with
      | error e => exact ⟨rfl, hrefl r⟩
      | ok resp =>
        by_cases hs : resp.status_code = 200
        · cases hb : resp.body with
          | error e =>
            simp [DeepSeekAnalyzer.analyze_stock, hs, hb, framePreserved]
          | ok body =>
            simp [DeepSeekAnalyzer.analyze_stock, hs, hb, framePreserved]
        · simp [DeepSeekAnalyzer.analyze_stock, hs, framePreserved]
  have hg : ∀ a g, (GeminiAnalyzer.analyze_stock a g r).1
      = (GeminiAnalyzer.analyze_stock a g r).2 ∧
      framePreserved (GeminiAnalyzer.analyze_stock a g r).2 r := by
    intro a g
    cases a with
    | false => exact ⟨rfl, hrefl r⟩
    | true =>
      cases g with
      | error e => exact ⟨rfl, hrefl r⟩
      | ok resp =>
        cases resp with
        | none => exact ⟨rfl, hrefl r⟩
        | some text =>
          by_cases ht : text ≠ "" <;>
            simp [GeminiAnalyzer.analyze_stock, ht, framePreserved]
  have ho : ∀ a o, (OpenAICompatibleAnalyzer.analyze_stock a o r).1
      = (OpenAICompatibleAnalyzer.analyze_stock a o r).2 ∧
      framePreserved (OpenAICompatibleAnalyzer.analyze_stock a o r).2 r := by
    intro a o
    cases a with
    | false => exact ⟨rfl, hrefl r⟩
    | true =>
      cases o with
      | error e => exact ⟨rfl, hrefl r⟩
      | ok choices =>
        cases choices with
        | nil => exact ⟨rfl, hrefl r⟩
        | cons content rest =>
          simp [OpenAICompatibleAnalyzer.analyze_stock, framePreserved]
  exact ⟨fun a p => (hds a p).1, fun a p => (hds a p).2,
    fun a g => (hg a g).1, fun a g => (hg a g).2,
    fun a o => (ho a o).1, fun a o => (ho a o).2⟩

/-- C10: with fewer than MIN_DATA_DAYS = 20 historical prices (including
none at all), `calculate_basic_technical_indicators` returns the dictionary
with MA5/MA10/MA20/RSI/MACD all `None` and signal "neutral" — even when the
list would suffice for an individual indicator — and with at least 20
prices the tail-mean MA values are filled in while MACD (never assigned by
the source) stays `None`. -/
theorem basic_indicators_min_days (p : ℚ) (hist : List ℚ) :
    (hist.length < MIN_DATA_DAYS →
      calculate_basic_technical_indicators p hist
        = ⟨p, none, none, none, none, none, "neutral"⟩) ∧
    (MIN_DATA_DAYS ≤ hist.length →
      (calculate_basic_technical_indicators p hist).MA5 = some (tailMean 5 hist) ∧
      (calculate_basic_technical_indicators p hist).MA10 = some (tailMean 10 hist) ∧
      (calculate_basic_technical_indicators p hist).MA20 = some (tailMean 20 hist) ∧
      (calculate_basic_technical_indicators p hist).MACD = none ∧
      (calculate_basic_technical_indicators p hist).current_price = p ∧
      (calculate_basic_technical_indicators p hist).signal = "neutral") := by
  constructor
  · intro h
    unfold calculate_basic_technical_indicators
    rw [if_pos (Or.inr h)]
  · intro h
    have hnil : ¬ hist = [] := by
      intro he
      rw [he] at h
      norm_num [MIN_DATA_DAYS] at h
    have hlt : ¬ hist.length < MIN_DATA_DAYS := not_lt.mpr h
    have h5 : 5 ≤ hist.length := le_trans (by norm_num [MIN_DATA_DAYS]) h
    have h10 : 10 ≤ hist.length := le_trans (by norm_num [MIN_DATA_DAYS]) h
    have h20 : 20 ≤ hist.length := le_trans (by norm_num [MIN_DATA_DAYS]) h
    refine ⟨?_, ?_, ?_, ?_, ?_, ?_⟩ <;>
      simp [calculate_basic_technical_indicators, hnil, hlt, h5, h10, h20]

/-- Witness for C10: a 14-price history (enough for RSI alone) still yields
the all-`None`/"neutral" dictionary, while a 20-price history fills MA5. -/
theorem basic_indicators_min_days_witness :
    calculate_basic_technical_indicators 10
        [1, 2, 3, 4, 5, 6, 7, 8, 9, 10, 11, 12, 13, 14]
      = ⟨10, none, none, none, none, none, "neutral"⟩ ∧
    (calculate_basic_technical_indicators 10
        [1, 2, 3, 4, 5, 6, 7, 8, 9, 10, 11, 12, 13, 14, 15, 16, 17, 18, 19, 20]).MA5
      = some (tailMean 5 [1, 2, 3, 4, 5, 6, 7, 8, 9, 10,
          11, 12, 13, 14, 15, 16, 17, 18, 19, 20]) :=
  ⟨(basic_indicators_min_days 10 _).1 (by decide),
   ((basic_indicators_min_days 10 _).2 (by decide)).1⟩

/-- The cell of a rolling computation at an in-range index. -/
theorem rollingApply_getElem? (f : List ℚ → ℚ) (w : ℕ) (xs : List ℚ) (t : ℕ)
    (ht : t < xs.length) :
    (rollingApply f w xs)[t]?
      = some (if w ≤ t + 1 then some (f (windowSlice w t xs)) else none) := by
  simp [rollingApply, List.getElem?_map, List.getElem?_range, ht]

/-- C7: for any series and window `w ≥ 1` with `w ≤ L`, the SMA series has
the input's length, its first `w−1` cells are undefined, its cell at index
`w−1` is the arithmetic mean of the first `w` inputs, and every cell at
index `t ≥ w−1` is the mean of the trailing `w` samples ending at `t`. -/
theorem sma_window_semantics (data : List ℚ) (w : ℕ) (hw : 0 < w) :
    (calculate_sma data w).length = data.length ∧
    (∀ t, t < data.length → t + 1 < w → (calculate_sma data w)[t]? = some none) ∧
    (w ≤ data.length →
      (calculate_sma data w)[w - 1]?
        = some (some (listMeanBy w (data.take w)))) ∧
    (∀ t, t < data.length → w ≤ t + 1 →
      (calculate_sma data w)[t]?
        = some (some (listMeanBy w (windowSlice w t data)))) := by
  have key : ∀ t, t < data.length →
      (calculate_sma data w)[t]?
        = some (if w ≤ t + 1 then some (listMeanBy w (windowSlice w t data)) else none) :=
    fun t ht => rollingApply_getElem? (listMeanBy w) w data t ht
  refine ⟨?_, ?_, ?_, ?_⟩
  · simp [calculate_sma, rollingMean, rollingApply]
  · intro t ht hlt
    rw [key t ht, if_neg (by omega)]
  · intro hwL
    have hlt : w - 1 < data.length := by omega
    rw [key (w - 1) hlt, if_pos (by omega)]
    have hslice : windowSlice w (w - 1) data = data.take w := by
      unfold windowSlice
      have hw1 : w - 1 + 1 = w := by omega
      rw [hw1, Nat.sub_self, List.drop_zero]
    rw [hslice]
  · intro t ht hge
    rw [key t ht, if_pos hge]

/-- Witness for C7: series [1,2,3,4] with window 2 — length 4, index 0
undefined, index 1 = (1+2)/2 = 3/2. -/
theorem sma_window_semantics_witness :
    (calculate_sma [1, 2, 3, 4] 2).length = 4 ∧
    (calculate_sma [1, 2, 3, 4] 2)[0]? = some none ∧
    (calculate_sma [1, 2, 3, 4] 2)[1]? = some (some (3 / 2)) := by
  refine ⟨(sma_window_semantics [1, 2, 3, 4] 2 (by norm_num)).1,
    (sma_window_semantics [1, 2, 3, 4] 2 (by norm_num)).2.1 0 (by norm_num) (by norm_num),
    ?_⟩
  have h := (sma_window_semantics [1, 2, 3, 4] 2 (by norm_num)).2.2.1 (by norm_num)
  rw [h]
  norm_num [listMeanBy]

/-- Counterexample to C1: an exception raised inside the KDJ computation
(one of the indicators the claim quantifies over) is NOT caught by
`calculate_all_indicators` — it escapes to the caller, no all-undefined KDJ
column is produced, and the remaining indicators of the frame are never
computed.  Only the zhixing trend/multi and oscillator routines have a
`try/except`. -/
theorem indicator_fault_isolation_counterexample :
    calculate_all_indicators (kdjOnlyFault "boom") sampleData
      = Except.error "boom" := rfl

/-- C1 (amended): exceptions are caught, logged and degraded to an
all-undefined series of the input length only for the trendLine, multiLine
and oscillator indicators; a trendLine exception leaves every other
indicator column of the frame unaffected, while an exception in an
unprotected indicator (e.g. KDJ) propagates out of
`calculate_all_indicators` and aborts the whole frame computation. -/
theorem indicator_fault_isolation_amended (data : DataFrame) (e : String) :
    calculate_zhixing_trend_line (some e) data.close
      = List.replicate data.close.length none ∧
    calculate_zhixing_multi_line (some e) data.close
      = List.replicate data.close.length none ∧
    calculate_oscillator (some e) data.close data.high data.low data.volume
        RSI_PERIOD
      = List.replicate data.close.length none ∧
    (calculate_all_indicators (trendFault e) data).map (Option.map Frame.kdj_k)
      = (calculate_all_indicators noFaults data).map (Option.map Frame.kdj_k) ∧
    (calculate_all_indicators (trendFault e) data).map (Option.map Frame.macd)
      = (calculate_all_indicators noFaults data).map (Option.map Frame.macd) ∧
    (calculate_all_indicators (trendFault e) data).map (Option.map Frame.bbi)
      = (calculate_all_indicators noFaults data).map (Option.map Frame.bbi) ∧
    (calculate_all_indicators (trendFault e) data).map (Option.map Frame.ma5)
      = (calculate_all_indicators noFaults data).map (Option.map Frame.ma5) ∧
    (calculate_all_indicators (trendFault e) data).map (Option.map Frame.rsi)
      = (calculate_all_indicators noFaults data).map (Option.map Frame.rsi) ∧
    (calculate_all_indicators (trendFault e) data).map (Option.map Frame.zhixing_multi)
      = (calculate_all_indicators noFaults data).map (Option.map Frame.zhixing_multi) ∧
    (calculate_all_indicators (trendFault e) data).map (Option.map Frame.zhixing_trend)
      = (calculate_all_indicators noFaults data).map
          (Option.map fun _ => (List.replicate data.close.length none : PdSeries)) ∧
    (MIN_DAYS_FOR_KDJ ≤ data.close.length →
      calculate_all_indicators (kdjOnlyFault e) data = Except.error e) := by
  have hgc : gatedColumns (trendFault e) data = gatedColumns noFaults data := rfl
  have key : ∀ (β : Type) (proj : Frame → β),
      (∀ cols, proj (buildFrame (trendFault e) data cols)
        = proj (buildFrame noFaults data cols)) →
      (calculate_all_indicators (trendFault e) data).map (Option.map proj)
        = (calculate_all_indicators noFaults data).map (Option.map proj) := by
    intro β proj hp
    unfold calculate_all_indicators
    by_cases h5 : data.close.length < MIN_DATA_DAYS / 4
    · rw [if_pos h5, if_pos h5]
    · rw [if_neg h5, if_neg h5, hgc]
      cases hcols : gatedColumns noFaults data with
      | error err => rfl
      | ok cols =>
        simp only [Except.map, Option.map, hp cols]
  have hdeg : (calculate_all_indicators (trendFault e) data).map
        (Option.map Frame.zhixing_trend)
      = (calculate_all_indicators noFaults data).map
          (Option.map fun _ => (List.replicate data.close.length none : PdSeries)) := by
    unfold calculate_all_indicators
    by_cases h5 : data.close.length < MIN_DATA_DAYS / 4
    · rw [if_pos h5, if_pos h5]
      rfl
    · rw [if_neg h5, if_neg h5, hgc]
      cases hcols : gatedColumns noFaults data with
      | error err => rfl
      | ok cols => rfl
  refine ⟨rfl, rfl, rfl, key _ Frame.kdj_k (fun cols => rfl),
    key _ Frame.macd (fun cols => rfl), key _ Frame.bbi (fun cols => rfl),
    key _ Frame.ma5 (fun cols => rfl), key _ Frame.rsi (fun cols => rfl),
    key _ Frame.zhixing_multi (fun cols => rfl), hdeg, ?_⟩
  intro h9
  have h5 : ¬ data.close.length < MIN_DATA_DAYS / 4 := by
    unfold MIN_DATA_DAYS
    unfold MIN_DAYS_FOR_KDJ at h9
    omega
  unfold calculate_all_indicators
  rw [if_neg h5]
  have herr : gatedColumns (kdjOnlyFault e) data = Except.error e := by
    unfold gatedColumns
    rw [if_pos h9]
    rfl
  rw [herr]
  rfl

/-- Witness for C1 (amended): on the concrete 9-bar frame, a trend-line
fault degrades that column to all-undefined while a KDJ fault aborts the
whole computation. -/
theorem indicator_fault_isolation_amended_witness :
    calculate_zhixing_trend_line (some "x") sampleData.close
      = List.replicate sampleData.close.length none ∧
    calculate_all_indicators (kdjOnlyFault "x") sampleData = Except.error "x" :=
  ⟨(indicator_fault_isolation_amended sampleData "x").1,
   (indicator_fault_isolation_amended sampleData "x").2.2.2.2.2.2.2.2.2.2
     (by decide)⟩

/-- A min-fold is below its seed and every element. -/
theorem foldl_min_le (rest : List ℚ) : ∀ x : ℚ,
    rest.foldl min x ≤ x ∧ ∀ a ∈ rest, rest.foldl min x ≤ a := by
  induction rest with
  | nil => intro x; simp
  | cons y rest ih =>
    intro x
    rw [List.foldl_cons]
    refine ⟨le_trans (ih (min x y)).1 (min_le_left x y), ?_⟩
    intro a ha
    rcases List.mem_cons.mp ha with h | h
    · rw [h]
      exact le_trans (ih (min x y)).1 (min_le_right x y)
    · exact (ih (min x y)).2 a h

/-- `listMin` bounds every member from below. -/
theorem listMin_le (ys : List ℚ) (a : ℚ) (ha : a ∈ ys) : listMin ys ≤ a := by
  cases ys with
  | nil => cases ha
  | cons x rest =>
    rcases List.mem_cons.mp ha with h | h
    · rw [h]
      exact (foldl_min_le rest x).1
    · exact (foldl_min_le rest x).2 a h

/-- A max-fold is above its seed and every element. -/
theorem foldl_max_ge (rest : List ℚ) : ∀ x : ℚ,
    x ≤ rest.foldl max x ∧ ∀ a ∈ rest, a ≤ rest.foldl max x := by
  induction rest with
  | nil => intro x; simp
  | cons y rest ih =>
    intro x
    rw [List.foldl_cons]
    refine ⟨le_trans (le_max_left x y) (ih (max x y)).1, ?_⟩
    intro a ha
    rcases List.mem_cons.mp ha with h | h
    · rw [h]
      exact le_trans (le_max_right x y) (ih (max x y)).1
    · exact (ih (max x y)).2 a h

/-- `listMax` bounds every member from above. -/
theorem le_listMax (ys : List ℚ) (a : ℚ) (ha : a ∈ ys) : a ≤ listMax ys := by
  cases ys with
  | nil => cases ha
  | cons x rest =>
    rcases List.mem_cons.mp ha with h | h
    · rw [h]
      exact (foldl_max_ge rest x).1
    · exact (foldl_max_ge rest x).2 a h

/-- The sample at index `t` belongs to its own trailing window. -/
theorem getD_mem_windowSlice (xs : List ℚ) (w t : ℕ) (hw : 0 < w)
    (ht : t < xs.length) : xs.getD t 0 ∈ windowSlice w t xs := by
  have hidx : (windowSlice w t xs)[t - (t + 1 - w)]? = some (xs.getD t 0) := by
    unfold windowSlice
    rw [List.getElem?_drop, List.getElem?_take]
    have harith : t + 1 - w + (t - (t + 1 - w)) = t := by omega
    rw [harith, if_pos (by omega)]
    rw [List.getD_eq_getElem?_getD]
    cases h : xs[t]? with
    | none => exact absurd (List.getElem?_eq_none_iff.mp h) (by omega)
    | some a => rfl
  exact List.mem_iff_getElem?.mpr ⟨t - (t + 1 - w), hidx⟩

/-- One EWM step keeps the running mean inside `[lo, hi]` (it is a convex
combination of the old mean and the new observation) and the accumulated
weight nonnegative. -/
theorem ewmStep_ok (α lo hi : ℚ) (h0 : 0 < α) (h1 : α ≤ 1)
    (st : Option (ℚ × ℚ)) (x : Cell)
    (hst : ∀ m w, st = some (m, w) → lo ≤ m ∧ m ≤ hi ∧ 0 ≤ w)
    (hx : ∀ v, x = some v → lo ≤ v ∧ v ≤ hi) :
    (∀ m w, (ewmStep α st x).1 = some (m, w) → lo ≤ m ∧ m ≤ hi ∧ 0 ≤ w) ∧
    (∀ v, (ewmStep α st x).2 = some v → lo ≤ v ∧ v ≤ hi) := by
  have h1α : (0 : ℚ) ≤ 1 - α := by linarith
  cases st with
  | none =>
    cases x with
    | none =>
      exact ⟨fun m w h => by simp [ewmStep] at h, fun v h => by simp [ewmStep] at h⟩
    | some xv =>
      have hxv := hx xv rfl
      constructor
      · intro m w h
        simp only [ewmStep, Option.some.injEq, Prod.mk.injEq] at h
        obtain ⟨hm, hw⟩ := h
        subst hm
        subst hw
        exact ⟨hxv.1, hxv.2, by norm_num⟩
      · intro v h
        simp only [ewmStep, Option.some.injEq] at h
        subst h
        exact hxv
  | some p =>
    obtain ⟨m, w⟩ := p
    have hmw := hst m w rfl
    have hw1α : (0 : ℚ) ≤ w * (1 - α) := mul_nonneg hmw.2.2 h1α
    cases x with
    | none =>
      constructor
      · intro m2 w2 h
        simp only [ewmStep, Option.some.injEq, Prod.mk.injEq] at h
        obtain ⟨hm, hw⟩ := h
        subst hm
        subst hw
        exact ⟨hmw.1, hmw.2.1, hw1α⟩
      · intro v h
        simp only [ewmStep, Option.some.injEq] at h
        subst h
        exact ⟨hmw.1, hmw.2.1⟩
    | some xv =>
      have hxv := hx xv rfl
      have hdenom : 0 < w * (1 - α) + α := by linarith
      have t1 : 0 ≤ w * (1 - α) * (m - lo) := mul_nonneg hw1α (by linarith [hmw.1])
      have t2 : 0 ≤ α * (xv - lo) := mul_nonneg h0.le (by linarith [hxv.1])
      have t3 : 0 ≤ w * (1 - α) * (hi - m) := mul_nonneg hw1α (by linarith [hmw.2.1])
      have t4 : 0 ≤ α * (hi - xv) := mul_nonneg h0.le (by linarith [hxv.2])
      have hlo : lo ≤ (w * (1 - α) * m + α * xv) / (w * (1 - α) + α) := by
        rw [le_div_iff₀ hdenom]
        nlinarith [t1, t2]
      have hhi : (w * (1 - α) * m + α * xv) / (w * (1 - α) + α) ≤ hi := by
        rw [div_le_iff₀ hdenom]
        nlinarith [t3, t4]
      constructor
      · intro m2 w2 h
        simp only [ewmStep, Option.some.injEq, Prod.mk.injEq] at h
        obtain ⟨hm, hw⟩ := h
        subst hm
        subst hw
        exact ⟨hlo, hhi, by linarith⟩
      · intro v h
        simp only [ewmStep, Option.some.injEq] at h
        subst h
        exact ⟨hlo, hhi⟩

/-- The exponentially-weighted mean of a series with defined cells in
`[lo, hi]` stays in `[lo, hi]` at every defined cell. -/
theorem ewmGo_bounded (α lo hi : ℚ) (h0 : 0 < α) (h1 : α ≤ 1) :
    ∀ (xs : PdSeries) (st : Option (ℚ × ℚ)),
      (∀ m w, st = some (m, w) → lo ≤ m ∧ m ≤ hi ∧ 0 ≤ w) →
      (∀ c ∈ xs, ∀ v, c = some v → lo ≤ v ∧ v ≤ hi) →
      ∀ c ∈ ewmGo α st xs, ∀ v, c = some v → lo ≤ v ∧ v ≤ hi := by
  intro xs
  induction xs with
  | nil =>
    intro st hst hxs c hc
    cases hc
  | cons x rest ih =>
    intro st hst hxs c hc
    have hstep := ewmStep_ok α lo hi h0 h1 st x hst (hxs x (List.mem_cons_self x rest))
    rw [ewmGo] at hc
    rcases List.mem_cons.mp hc with h | h
    · intro v hv
      exact hstep.2 v (h ▸ hv)
    · exact ih (ewmStep α st x).1 hstep.1
        (fun c hcr => hxs c (List.mem_cons_of_mem x hcr)) c h

/-- Under `low ≤ close ≤ high`, every defined RSV cell lies in `[0, 100]`:
the numerator `close − LLV` is within `[0, HHV − LLV]` and the denominator
exceeds it by `EPSILON`. -/
theorem rsv_cells_bounded (high low close : List ℚ) (n : ℕ) (hn : 0 < n)
    (hord : ∀ i, i < high.length → i < low.length → i < close.length →
      low.getD i 0 ≤ close.getD i 0 ∧ close.getD i 0 ≤ high.getD i 0) :
    ∀ c ∈ seriesZip3 (fun cv ll hh => (cv - ll) / (hh - ll + EPSILON) * 100)
        (close.map some) (rollingMin n low) (rollingMax n high),
      ∀ u, c = some u → 0 ≤ u ∧ u ≤ 100 := by
  intro c hc u hcu
  subst hcu
  obtain ⟨t, ht⟩ := List.mem_iff_getElem?.mp hc
  have hlt : t < (seriesZip3 (fun cv ll hh => (cv - ll) / (hh - ll + EPSILON) * 100)
      (close.map some) (rollingMin n low) (rollingMax n high)).length := by
    by_contra hn'
    rw [List.getElem?_eq_none_iff.mpr (by omega)] at ht
    cases ht
  have hlens : (seriesZip3 (fun cv ll hh => (cv - ll) / (hh - ll + EPSILON) * 100)
      (close.map some) (rollingMin n low) (rollingMax n high)).length
      = min close.length (min low.length high.length) := by
    simp [seriesZip3, rollingMin, rollingMax, rollingApply, List.length_zipWith,
      List.length_zip]
  rw [hlens] at hlt
  have htc : t < close.length := by omega
  have htl : t < low.length := by omega
  have hth : t < high.length := by omega
  have hcv : close[t]? = some (close.getD t 0) := by
    rw [List.getD_eq_getElem?_getD]
    cases h : close[t]? with
    | none => exact absurd (List.getElem?_eq_none_iff.mp h) (by omega)
    | some a => rfl
  by_cases hcond : n ≤ t + 1
  · have hlowc : (rollingMin n low)[t]? = some (some (listMin (windowSlice n t low))) := by
      rw [rollingMin, rollingApply_getElem? _ _ _ _ htl, if_pos hcond]
    have hhighc : (rollingMax n high)[t]? = some (some (listMax (windowSlice n t high))) := by
      rw [rollingMax, rollingApply_getElem? _ _ _ _ hth, if_pos hcond]
    rw [seriesZip3, List.zip, List.getElem?_zipWith, List.getElem?_map, hcv,
      List.getElem?_zipWith, hlowc, hhighc] at ht
    set cv := close.getD t 0 with hcvdef
    set lmin := listMin (windowSlice n t low) with hlmindef
    set hmax := listMax (windowSlice n t high) with hhmaxdef
    simp only [Option.map_some', Option.some.injEq] at ht
    have hu : (cv - lmin) / (hmax - lmin + EPSILON) * 100 = u := ht
    have hordt := hord t hth htl htc
    have hml : lmin ≤ low.getD t 0 :=
      listMin_le _ _ (getD_mem_windowSlice low n t hn htl)
    have hmh : high.getD t 0 ≤ hmax :=
      le_listMax _ _ (getD_mem_windowSlice high n t hn hth)
    have hlc : lmin ≤ cv := le_trans hml hordt.1
    have hch : cv ≤ hmax := le_trans hordt.2 hmh
    have heps : (0 : ℚ) < EPSILON := by norm_num [EPSILON]
    have hden : 0 < hmax - lmin + EPSILON := by linarith
    have hfrac : (cv - lmin) / (hmax - lmin + EPSILON) ≤ 1 :=
      (div_le_one hden).mpr (by linarith)
    have hfrac0 : 0 ≤ (cv - lmin) / (hmax - lmin + EPSILON) :=
      div_nonneg (by linarith) hden.le
    rw [← hu]
    constructor
    · nlinarith
    · nlinarith
  · have hlowc : (rollingMin n low)[t]? = some none := by
      rw [rollingMin, rollingApply_getElem? _ _ _ _ htl, if_neg hcond]
    have hhighc : (rollingMax n high)[t]? = some none := by
      rw [rollingMax, rollingApply_getElem? _ _ _ _ hth, if_neg hcond]
    rw [seriesZip3, List.zip, List.getElem?_zipWith, List.getElem?_map, hcv,
      List.getElem?_zipWith, hlowc, hhighc] at ht
    simp at ht

/-- C6: for every OHLC input with `low ≤ close ≤ high` at every bar, the K
and D series of the KDJ computation (defaults n=9, m1=3, m2=3) lie within
`[0, 100]` at every index where they are defined: RSV is bounded in
`[0, 100]` and the EWM smoothing is a convex combination of its inputs. -/
theorem kdj_k_d_bounded (high low close : List ℚ)
    (hord : ∀ i, i < high.length → i < low.length → i < close.length →
      low.getD i 0 ≤ close.getD i 0 ∧ close.getD i 0 ≤ high.getD i 0)
    (t : ℕ) (v : ℚ)
    (hv : ((calculate_kdj high low close KDJ_N KDJ_M1 KDJ_M2).1)[t]? = some (some v) ∨
          ((calculate_kdj high low close KDJ_N KDJ_M1 KDJ_M2).2.1)[t]? = some (some v)) :
    0 ≤ v ∧ v ≤ 100 := by
  have hn : 0 < KDJ_N := by norm_num [KDJ_N]
  have hα1 : (0 : ℚ) < 1 / ((KDJ_M1 : ℕ) : ℚ) := by norm_num [KDJ_M1]
  have hα1' : (1 : ℚ) / ((KDJ_M1 : ℕ) : ℚ) ≤ 1 := by norm_num [KDJ_M1]
  have hα2 : (0 : ℚ) < 1 / ((KDJ_M2 : ℕ) : ℚ) := by norm_num [KDJ_M2]
  have hα2' : (1 : ℚ) / ((KDJ_M2 : ℕ) : ℚ) ≤ 1 := by norm_num [KDJ_M2]
  have hrsv := rsv_cells_bounded high low close KDJ_N hn hord
  have hk : ∀ c ∈ ewmMean (1 / ((KDJ_M1 : ℕ) : ℚ))
      (seriesZip3 (fun cv ll hh => (cv - ll) / (hh - ll + EPSILON) * 100)
        (close.map some) (rollingMin KDJ_N low) (rollingMax KDJ_N high)),
      ∀ u, c = some u → 0 ≤ u ∧ u ≤ 100 :=
    ewmGo_bounded _ 0 100 hα1 hα1' _ none (fun m w h => by cases h) hrsv
  have hd : ∀ c ∈ ewmMean (1 / ((KDJ_M2 : ℕ) : ℚ))
      (ewmMean (1 / ((KDJ_M1 : ℕ) : ℚ))
        (seriesZip3 (fun cv ll hh => (cv - ll) / (hh - ll + EPSILON) * 100)
          (close.map some) (rollingMin KDJ_N low) (rollingMax KDJ_N high))),
      ∀ u, c = some u → 0 ≤ u ∧ u ≤ 100 :=
    ewmGo_bounded _ 0 100 hα2 hα2' _ none (fun m w h => by cases h) hk
  rcases hv with hv | hv
  · have hk1 : (calculate_kdj high low close KDJ_N KDJ_M1 KDJ_M2).1
        = ewmMean (1 / ((KDJ_M1 : ℕ) : ℚ))
            (seriesZip3 (fun cv ll hh => (cv - ll) / (hh - ll + EPSILON) * 100)
              (close.map some) (rollingMin KDJ_N low) (rollingMax KDJ_N high)) := rfl
    rw [hk1] at hv
    exact hk (some v) (List.mem_iff_getElem?.mpr ⟨t, hv⟩) v rfl
  · have hd1 : (calculate_kdj high low close KDJ_N KDJ_M1 KDJ_M2).2.1
        = ewmMean (1 / ((KDJ_M2 : ℕ) : ℚ))
            (ewmMean (1 / ((KDJ_M1 : ℕ) : ℚ))
              (seriesZip3 (fun cv ll hh => (cv - ll) / (hh - ll + EPSILON) * 100)
                (close.map some) (rollingMin KDJ_N low) (rollingMax KDJ_N high))) := rfl
    rw [hd1] at hv
    exact hd (some v) (List.mem_iff_getElem?.mpr ⟨t, hv⟩) v rfl

/-- Witness for C6: a constant 9-bar OHLC series has K defined at index 8
with value 0, and the theorem bounds it. -/
theorem kdj_k_d_bounded_witness :
    ((calculate_kdj [5, 5, 5, 5, 5, 5, 5, 5, 5] [5, 5, 5, 5, 5, 5, 5, 5, 5]
        [5, 5, 5, 5, 5, 5, 5, 5, 5] KDJ_N KDJ_M1 KDJ_M2).1)[8]? = some (some 0) ∧
    (0 ≤ (0 : ℚ) ∧ (0 : ℚ) ≤ 100) := by
  have hv : ((calculate_kdj [5, 5, 5, 5, 5, 5, 5, 5, 5] [5, 5, 5, 5, 5, 5, 5, 5, 5]
      [5, 5, 5, 5, 5, 5, 5, 5, 5] KDJ_N KDJ_M1 KDJ_M2).1)[8]? = some (some 0) := by
    norm_num [calculate_kdj, ewmMean, ewmGo, ewmStep, seriesZip3, rollingMin, rollingMax,
      rollingApply, windowSlice, listMin, listMax, EPSILON, KDJ_N, KDJ_M1, KDJ_M2,
      List.range_succ]
  exact ⟨hv,
    kdj_k_d_bounded [5, 5, 5, 5, 5, 5, 5, 5, 5] [5, 5, 5, 5, 5, 5, 5, 5, 5]
      [5, 5, 5, 5, 5, 5, 5, 5, 5]
      (fun i h1 h2 h3 => ⟨le_rfl, le_rfl⟩) 8 0 (Or.inl hv)⟩
